import Mathlib

/-!
Verification of the authenticated inventory API (FastAPI + JWT).

The development shallowly embeds the data model of app/models.py, the
dependency functions and route handler of app/routers/inv.py, and the
behavior of the two external primitives those functions call:

* python-jose jwt.decode: verifies the signature against the secret, then
  validates the exp claim (ExpiredSignatureError is a JWTError); any raw
  string that is not a structurally valid JWT raises JWTError as well.
* fastapi.security.OAuth2PasswordBearer: extracts the bearer token from the
  Authorization header; on a missing header or a non-bearer scheme it raises
  HTTP 401 with a WWW-Authenticate Bearer challenge.

The credential-exchange router (app/routers/auth.py) and the password-hash
helpers (app/auth.py) are referenced by app/main.py and by the tests but are
not present among the source files; they are modelled from the spec where a
claim needs them, as marked on each such definition.

Machine-level details that no claim depends on are abstracted: timestamps
are naturals (seconds), a signature is the output of a concrete keyed
encoding rather than HMAC-SHA256, and a wire-level token either parses to a
structured token or is malformed.
-/

/-- Modelled from the spec: app/auth.py (the Password Hasher) is not among
the source files, only its callers and the tests are.  Per section 4.1 a
digest embeds the random salt in its output; verification recomputes with
the embedded salt and compares. -/
structure Digest where
  salt : Nat
  body : Nat × String
deriving DecidableEq

/-- Modelled from the spec: the one-way keyed primitive behind the hasher
(app/auth.py is absent from the sources).  Section 4.1 demands that
verification succeed iff the plaintext matches what produced the digest,
which forces the primitive to be collision-free, so it is idealized as an
injective keyed encoding; no claim uses one-wayness. -/
def hash_function (salt : Nat) (plaintext : String) : Nat × String :=
  (salt, plaintext)

/-- Modelled from the spec: get_password_hash of app/auth.py, section 4.1
hash(plaintext) -> digest.  The random salt the implementation draws per
call is an explicit argument here. -/
def get_password_hash (salt : Nat) (plaintext : String) : Digest :=
  { salt := salt, body := hash_function salt plaintext }

/-- Modelled from the spec: verify_password of app/auth.py, section 4.1
verify(plaintext, digest) -> bool: recompute with the embedded salt and
compare. -/
def verify_password (plaintext : String) (d : Digest) : Bool :=
  hash_function d.salt plaintext == d.body

/-- A row of the user table (app/models.py, class User): integer primary
key, unique username, password digest.  The hashed_password column stores
the digest opaquely; here it keeps the structured form the hasher model
produces. -/
structure User where
  id : Nat
  username : String
  hashed_password : Digest
deriving DecidableEq

/-- A row of the inv table (app/models.py, class Inv; named InvRow here
because Mathlib reserves the name Inv). -/
structure InvRow where
  id : Nat
  item_name : String
  quantity : Int
deriving DecidableEq

/-- The persisted state the two routers read: the user table and the inv
table. -/
structure Store where
  users : List User
  invs : List InvRow
deriving DecidableEq

/-- The pydantic response model for one inventory row
(app/schemas.py, class InvItem). -/
structure InvItem where
  id : Nat
  item_name : String
  quantity : Int
deriving DecidableEq

/-- fastapi.HTTPException as raised by the routers: status code, detail
string, extra response headers. -/
structure HTTPException where
  status_code : Nat
  detail : String
  headers : List (String × String)
deriving DecidableEq

/-- The claim set of a decoded JWT as get_current_user reads it: the sub
claim may be absent, exp is the expiry timestamp. -/
structure Payload where
  sub : Option String
  exp : Nat
deriving DecidableEq

/-- The signature a correctly signed token carries for a given secret:
an injective keyed encoding standing in for the HMAC of the settings
algorithm.  Forgery resistance is not modelled; no claim needs it. -/
def sign (secret : String) (p : Payload) : String :=
  secret ++ "#" ++ (match p.sub with
    | none => "-"
    | some s => "+" ++ s) ++ "#" ++ toString p.exp

/-- A structurally valid JWT: a payload together with the signature bytes
it was issued with. -/
structure Token where
  payload : Payload
  sig : String
deriving DecidableEq

/-- A wire-level token string: either it parses as a JWT or it is
malformed (jose raises JWTError on the latter before any check runs). -/
inductive TokenWire where
  | malformed (raw : String)
  | wellFormed (t : Token)
deriving DecidableEq

/-- The failures jose jwt.decode signals; ExpiredSignatureError is a
subclass of JWTError, so all are caught by the except JWTError clause. -/
inductive JWTError where
  | notAJwt
  | invalidSignature
  | expired
deriving DecidableEq

/-- jose jwt.decode(token, secret, algorithms): reject a malformed string,
verify the signature against the secret, then validate exp (expired when
exp is strictly before the current time); on success return the claims. -/
def jwtDecode (tw : TokenWire) (secret : String) (now : Nat) :
    Except JWTError Payload :=
  match tw with
  | TokenWire.malformed _ => Except.error JWTError.notAJwt
  | TokenWire.wellFormed t =>
    if t.sig ≠ sign secret t.payload then Except.error JWTError.invalidSignature
    else if t.payload.exp < now then Except.error JWTError.expired
    else Except.ok t.payload

/-- The single exception get_current_user raises on every failure path
(app/routers/inv.py lines 25-29). -/
def credentials_exception : HTTPException :=
  { status_code := 401
    detail := "Could not validate credentials"
    headers := [("WWW-Authenticate", "Bearer")] }

/-- db.query(User).filter(User.username == username).first(): the first
stored user carrying the given username, if any. -/
def findUser (db : Store) (username : String) : Option User :=
  db.users.find? (fun u => u.username == username)

/-- get_current_user (app/routers/inv.py lines 24-40): decode and verify
the token, require a sub claim, resolve it in the user table; every
failure raises the one credentials_exception. -/
def get_current_user (token : TokenWire) (db : Store) (secret : String)
    (now : Nat) : Except HTTPException User :=
  match jwtDecode token secret now with
  | Except.error _ => Except.error credentials_exception
  | Except.ok payload =>
    match payload.sub with
    | none => Except.error credentials_exception
    | some username =>
      match findUser db username with
      | none => Except.error credentials_exception
      | some user => Except.ok user

/-- read_inv (app/routers/inv.py lines 43-49): db.query(Inv).all(),
rendered through the InvItem response model. -/
def read_inv (db : Store) (current_user : User) : List InvItem :=
  let _ := current_user
  db.invs.map (fun i => { id := i.id, item_name := i.item_name,
                          quantity := i.quantity })

/-- str.lower on one character, for the ascii scheme words the header
comparison sees (an executable model of Python str.lower). -/
def lower_char (c : Char) : Char :=
  if 65 ≤ c.toNat ∧ c.toNat ≤ 90 then Char.ofNat (c.toNat + 32) else c

/-- str.lower on a scheme word: lowercase every character. -/
def lower_ascii (s : String) : String :=
  String.mk (s.data.map lower_char)

/-- The Authorization header split as fastapi get_authorization_scheme_param
splits it: a scheme word and the remainder, here already parsed as a wire
token. -/
structure AuthHeader where
  scheme : String
  param : TokenWire
deriving DecidableEq

/-- The exception OAuth2PasswordBearer raises when the Authorization header
is absent or its scheme is not bearer. -/
def not_authenticated_exception : HTTPException :=
  { status_code := 401
    detail := "Not authenticated"
    headers := [("WWW-Authenticate", "Bearer")] }

/-- oauth2_scheme (fastapi OAuth2PasswordBearer with tokenUrl "token"):
reject a request with no Authorization header or a non-bearer scheme,
otherwise hand the token part to the dependency. -/
def oauth2_scheme (authorization : Option AuthHeader) :
    Except HTTPException TokenWire :=
  match authorization with
  | none => Except.error not_authenticated_exception
  | some h =>
    if lower_ascii h.scheme = "bearer" then Except.ok h.param
    else Except.error not_authenticated_exception

/-- GET /inv end to end: token extraction, the auth gate, then the
inventory read, with each raised HTTPException becoming the response. -/
def handle_get_inv (authorization : Option AuthHeader) (db : Store)
    (secret : String) (now : Nat) : Except HTTPException (List InvItem) :=
  match oauth2_scheme authorization with
  | Except.error e => Except.error e
  | Except.ok tw =>
    match get_current_user tw db secret now with
    | Except.error e => Except.error e
    | Except.ok user => Except.ok (read_inv db user)

/-- The response model of the token endpoint
(app/schemas.py, class Token): access token plus token type. -/
structure TokenResponse where
  access_token : TokenWire
  token_type : String
deriving DecidableEq

/-- The exception the credential exchange raises on a bad username or
password: 401 with the bearer challenge (spec sections 4.4 and 6). -/
def invalid_credentials_exception : HTTPException :=
  { status_code := 401
    detail := "Incorrect username or password"
    headers := [("WWW-Authenticate", "Bearer")] }

/-- Modelled from the spec: the Token Issuer (create_access_token of
app/routers/auth.py, absent from the sources).  Section 4.2: encode the
subject and an expiry now + TTL, sign with the server secret. -/
def create_access_token (username : String) (secret : String)
    (now ttl : Nat) : TokenWire :=
  TokenWire.wellFormed
    { payload := { sub := some username, exp := now + ttl }
      sig := sign secret { sub := some username, exp := now + ttl } }

/-- Modelled from the spec: POST /token (app/routers/auth.py, absent from
the sources).  Section 4.4: look up the user by username, reject as
Unauthorized if absent; verify the password, reject as Unauthorized on
mismatch; otherwise issue a token and return it with token type bearer. -/
def login_for_access_token (db : Store) (username password : String)
    (secret : String) (now ttl : Nat) : Except HTTPException TokenResponse :=
  match findUser db username with
  | none => Except.error invalid_credentials_exception
  | some user =>
    if verify_password password user.hashed_password then
      Except.ok { access_token := create_access_token username secret now ttl
                  token_type := "bearer" }
    else Except.error invalid_credentials_exception

/-- login_for_access_token with its store effect made explicit: the pair of
the response and the store as the endpoint leaves it. -/
def login_for_access_token_effects (db : Store) (username password : String)
    (secret : String) (now ttl : Nat) :
    Except HTTPException TokenResponse × Store :=
  match findUser db username with
  | none => (Except.error invalid_credentials_exception, db)
  | some user =>
    if verify_password password user.hashed_password then
      (Except.ok { access_token := create_access_token username secret now ttl
                   token_type := "bearer" }, db)
    else (Except.error invalid_credentials_exception, db)

/-- One request-scoped database session as get_db hands it out: its
identity and whether close() has run on it. -/
structure DBSession where
  session_id : Nat
  closed : Bool
deriving DecidableEq

/-- Session.close(). -/
def close_session (s : DBSession) : DBSession :=
  { s with closed := true }

/-- get_db (app/routers/inv.py lines 15-20) as FastAPI drives it: create a
session, yield it to the request body, and run the finally block - which
closes the session - whether the body returned normally or raised. -/
def get_db_scope {A : Type} (session_id : Nat)
    (body : DBSession → Except HTTPException A) :
    Except HTTPException A × DBSession :=
  let db : DBSession := { session_id := session_id, closed := false }
  match body db with
  | Except.ok a => (Except.ok a, close_session db)
  | Except.error e => (Except.error e, close_session db)

/-- get_current_user with its store effects made explicit: alongside the
result, the store as the gate leaves it and how many store lookups the
taken path performed. -/
def get_current_user_effects (token : TokenWire) (db : Store)
    (secret : String) (now : Nat) :
    Except HTTPException User × Store × Nat :=
  match jwtDecode token secret now with
  | Except.error _ => (Except.error credentials_exception, db, 0)
  | Except.ok payload =>
    match payload.sub with
    | none => (Except.error credentials_exception, db, 0)
    | some username =>
      match findUser db username with
      | none => (Except.error credentials_exception, db, 1)
      | some user => (Except.ok user, db, 1)

/-- The disjunction of the four rejection causes of the auth gate, as a
decidable check: the token does not decode (malformed, bad signature or
expired), or the sub claim is absent, or no stored user carries the
subject username. -/
def authFailureCause (tw : TokenWire) (db : Store) (secret : String)
    (now : Nat) : Bool :=
  match jwtDecode tw secret now with
  | Except.error _ => true
  | Except.ok p =>
    match p.sub with
    | none => true
    | some username => (findUser db username).isNone

/-- The seeded user of the test suite: testuser with the digest of
testpassword. -/
def sampleUser : User :=
  { id := 1, username := "testuser"
    hashed_password := get_password_hash 1 "testpassword" }

/-- A second stored user, for identity-independence scenarios. -/
def sampleUser2 : User :=
  { id := 2, username := "bob", hashed_password := get_password_hash 2 "pw2" }

/-- The seeded store of the test suite: one user, two inventory rows. -/
def sampleDb : Store :=
  { users := [sampleUser]
    invs := [{ id := 1, item_name := "Widget", quantity := 100 },
             { id := 2, item_name := "Gadget", quantity := 50 }] }

/-- The seeded store with a second user added. -/
def sampleDb2 : Store :=
  { users := [sampleUser, sampleUser2], invs := sampleDb.invs }

/-- A concrete server secret for the sample scenarios. -/
def sampleSecret : String := "server-secret"

/-- A token correctly signed with sampleSecret for testuser, expiring at
time 100. -/
def sampleToken : Token :=
  { payload := { sub := some "testuser", exp := 100 }
    sig := sign sampleSecret { sub := some "testuser", exp := 100 } }

/-- A token correctly signed with sampleSecret for bob, expiring at
time 100. -/
def sampleToken2 : Token :=
  { payload := { sub := some "bob", exp := 100 }
    sig := sign sampleSecret { sub := some "bob", exp := 100 } }

/-- On a matching signature and an unexpired token, jose decoding returns
the claims. -/
theorem jwtDecode_ok_of_valid {t : Token} {secret : String} {now : Nat}
    (hsig : t.sig = sign secret t.payload) (hexp : now ≤ t.payload.exp) :
    jwtDecode (TokenWire.wellFormed t) secret now = Except.ok t.payload := by
  simp only [jwtDecode]
  rw [if_neg (not_not_intro hsig), if_neg (Nat.not_lt.mpr hexp)]

/-- With pairwise distinct usernames - the unique index of the user table -
the first match of a stored user by its own username is that user. -/
theorem find_by_username {l : List User} {user : User}
    (huniq : l.Pairwise (fun a b => a.username ≠ b.username))
    (hmem : user ∈ l) :
    l.find? (fun u => u.username == user.username) = some user := by
  induction l with
  | nil => cases hmem
  | cons a l ih =>
    rcases List.mem_cons.mp hmem with h | h
    · subst h
      simp [List.find?]
    · have hne : a.username ≠ user.username :=
        (List.pairwise_cons.mp huniq).1 user h
      rw [List.find?_cons_of_neg]
      · exact ih (List.pairwise_cons.mp huniq).2 h
      · simp [hne]

/-- Every error get_current_user produces is the one credentials_exception. -/
theorem get_current_user_error_eq {tw : TokenWire} {db : Store}
    {secret : String} {now : Nat} {e : HTTPException}
    (h : get_current_user tw db secret now = Except.error e) :
    e = credentials_exception := by
  cases hdec : jwtDecode tw secret now with
  | error err =>
    simp [get_current_user, hdec] at h
    exact h.symm
  | ok p =>
    cases hsub : p.sub with
    | none =>
      simp [get_current_user, hdec, hsub] at h
      exact h.symm
    | some u =>
      cases hf : findUser db u with
      | none =>
        simp [get_current_user, hdec, hsub, hf] at h
        exact h.symm
      | some user =>
        simp [get_current_user, hdec, hsub, hf] at h

/-- C1: for every token whose signature verifies against the server secret,
whose expiry has not passed, and whose sub claim is present and equals the
username of some stored user (usernames being pairwise distinct, as the
unique index of the user table guarantees), the auth gate succeeds and
returns exactly that stored user. -/
theorem auth_gate_valid_token_returns_stored_user
    (t : Token) (db : Store) (secret : String) (now : Nat) (user : User)
    (hsig : t.sig = sign secret t.payload)
    (hexp : now ≤ t.payload.exp)
    (hsub : t.payload.sub = some user.username)
    (huniq : db.users.Pairwise (fun a b => a.username ≠ b.username))
    (hmem : user ∈ db.users) :
    get_current_user (TokenWire.wellFormed t) db secret now =
      Except.ok user := by
  unfold get_current_user
  rw [jwtDecode_ok_of_valid hsig hexp]
  simp [hsub, findUser, find_by_username huniq hmem]

/-- Witness for C1: at time 50 the sample token signed for testuser with
the sample secret resolves to the stored sample user. -/
theorem auth_gate_valid_token_witness :
    get_current_user (TokenWire.wellFormed sampleToken) sampleDb sampleSecret
      50 = Except.ok sampleUser :=
  auth_gate_valid_token_returns_stored_user sampleToken sampleDb sampleSecret
    50 sampleUser rfl (by decide) rfl (by decide) (by decide)

/-- C2: whichever check fails - the token does not decode (tampered
signature, expiry passed, or not a JWT at all), the sub claim is absent, or
the subject resolves to no stored user - the auth gate produces the one
generic credentials_exception, identical in status, detail and headers in
every case, so the caller cannot tell which check failed. -/
theorem auth_gate_failure_single_generic_outcome
    (tw : TokenWire) (db : Store) (secret : String) (now : Nat)
    (h : authFailureCause tw db secret now = true) :
    get_current_user tw db secret now = Except.error credentials_exception := by
  cases hdec : jwtDecode tw secret now with
  | error err => simp [get_current_user, hdec]
  | ok p =>
    cases hsub : p.sub with
    | none => simp [get_current_user, hdec, hsub]
    | some u =>
      cases hf : findUser db u with
      | none => simp [get_current_user, hdec, hsub, hf]
      | some user =>
        simp [authFailureCause, hdec, hsub, hf] at h

/-- Witness for C2: an undecodable token string is rejected with the
generic credentials_exception. -/
theorem auth_gate_failure_witness :
    get_current_user (TokenWire.malformed "garbage") sampleDb sampleSecret
      50 = Except.error credentials_exception :=
  auth_gate_failure_single_generic_outcome (TokenWire.malformed "garbage")
    sampleDb sampleSecret 50 (by decide)

/-- C6: for every token and every verification time, a signature that does
not match the server secret or an expiry already passed makes the auth gate
reject with the credentials_exception, so no such token is ever accepted. -/
theorem auth_gate_rejects_bad_signature_or_expired
    (t : Token) (db : Store) (secret : String) (now : Nat)
    (h : t.sig ≠ sign secret t.payload ∨ t.payload.exp < now) :
    get_current_user (TokenWire.wellFormed t) db secret now =
      Except.error credentials_exception := by
  simp only [get_current_user, jwtDecode]
  rcases h with h | h
  · rw [if_pos h]
  · by_cases hs : t.sig = sign secret t.payload
    · rw [if_neg (not_not_intro hs), if_pos h]
    · rw [if_pos hs]

/-- Witness for C6: the sample token, expiring at 100, is rejected when
verified at time 200. -/
theorem auth_gate_rejects_witness :
    get_current_user (TokenWire.wellFormed sampleToken) sampleDb sampleSecret
      200 = Except.error credentials_exception :=
  auth_gate_rejects_bad_signature_or_expired sampleToken sampleDb sampleSecret
    200 (Or.inr (by decide))

/-- C3: for every store state, a GET /inv request that authenticates
returns the full list of inventory rows, unfiltered and unpaginated, each
rendered through the InvItem model as id, item_name, quantity. -/
theorem read_inv_returns_all_rows
    (hdr : AuthHeader) (db : Store) (secret : String) (now : Nat) (user : User)
    (hscheme : lower_ascii hdr.scheme = "bearer")
    (hauth : get_current_user hdr.param db secret now = Except.ok user) :
    handle_get_inv (some hdr) db secret now =
      Except.ok (db.invs.map (fun i =>
        { id := i.id, item_name := i.item_name, quantity := i.quantity })) := by
  simp [handle_get_inv, oauth2_scheme, hscheme, hauth, read_inv]

/-- Witness for C3: the authenticated sample request returns both seeded
rows, Widget and Gadget, rendered as InvItem values. -/
theorem read_inv_returns_all_rows_witness :
    handle_get_inv
        (some { scheme := "Bearer", param := TokenWire.wellFormed sampleToken })
        sampleDb sampleSecret 50 =
      Except.ok (sampleDb.invs.map (fun i =>
        { id := i.id, item_name := i.item_name, quantity := i.quantity })) :=
  read_inv_returns_all_rows _ sampleDb sampleSecret 50 sampleUser
    (by decide) rfl

/-- C7: every failure response of GET /inv - missing header, wrong scheme,
malformed, tampered or expired token, absent subject, or unresolved user -
carries status 401 together with the WWW-Authenticate Bearer challenge
header. -/
theorem inv_failure_response_401_bearer
    (authorization : Option AuthHeader) (db : Store) (secret : String)
    (now : Nat) (e : HTTPException)
    (h : handle_get_inv authorization db secret now = Except.error e) :
    e.status_code = 401 ∧ ("WWW-Authenticate", "Bearer") ∈ e.headers := by
  have he : e = credentials_exception ∨ e = not_authenticated_exception := by
    cases authorization with
    | none =>
      simp [handle_get_inv, oauth2_scheme] at h
      exact Or.inr h.symm
    | some hd =>
      by_cases hs : lower_ascii hd.scheme = "bearer"
      · cases hg : get_current_user hd.param db secret now with
        | error e2 =>
          simp [handle_get_inv, oauth2_scheme, hs, hg] at h
          exact Or.inl (h ▸ get_current_user_error_eq hg)
        | ok u =>
          simp [handle_get_inv, oauth2_scheme, hs, hg] at h
      · simp [handle_get_inv, oauth2_scheme, hs] at h
        exact Or.inr h.symm
  rcases he with he | he <;> subst he <;> exact ⟨rfl, by decide⟩

/-- Witness for C7: a request with no Authorization header fails with a
401 response carrying the bearer challenge header. -/
theorem inv_failure_response_witness :
    not_authenticated_exception.status_code = 401 ∧
      ("WWW-Authenticate", "Bearer") ∈ not_authenticated_exception.headers :=
  inv_failure_response_401_bearer none sampleDb sampleSecret 50
    not_authenticated_exception rfl

/-- C8: the session get_db creates for a request is closed on every exit
path - the finally block runs whether the body produced a response or
raised - and the body observes the fresh, unclosed session. -/
theorem get_db_closes_session_on_every_path :
    ∀ (A : Type) (session_id : Nat)
      (body : DBSession → Except HTTPException A),
      (get_db_scope session_id body).2.closed = true ∧
      (get_db_scope session_id body).1 =
        body { session_id := session_id, closed := false } := by
  intro A sid body
  simp only [get_db_scope]
  cases hb : body { session_id := sid, closed := false } <;>
    simp [hb, close_session]

/-- Counterexample for C9: on a token that does not decode, the gate
rejects having performed zero store lookups, not exactly one. -/
theorem auth_gate_zero_lookups_counterexample :
    ¬ ((get_current_user_effects (TokenWire.malformed "zz") sampleDb
        sampleSecret 50).2.2 = 1) := by decide

/-- C9 (amended): the auth gate is side-effect-free - it leaves the store
unchanged and performs at most one read-only lookup (exactly one only once
the token has decoded with a present subject), whether it succeeds or
rejects - and its instrumented run agrees with get_current_user. -/
theorem auth_gate_at_most_one_lookup_store_unchanged :
    ∀ (tw : TokenWire) (db : Store) (secret : String) (now : Nat),
      (get_current_user_effects tw db secret now).2.1 = db ∧
      (get_current_user_effects tw db secret now).2.2 ≤ 1 ∧
      (get_current_user_effects tw db secret now).1 =
        get_current_user tw db secret now := by
  intro tw db secret now
  cases hdec : jwtDecode tw secret now with
  | error err =>
    simp [get_current_user_effects, get_current_user, hdec]
  | ok p =>
    cases hsub : p.sub with
    | none =>
      simp [get_current_user_effects, get_current_user, hdec, hsub]
    | some u =>
      cases hf : findUser db u with
      | none =>
        simp [get_current_user_effects, get_current_user, hdec, hsub, hf]
      | some user =>
        simp [get_current_user_effects, get_current_user, hdec, hsub, hf]

/-- C10: the GET /inv response does not depend on which stored user the
valid token names: two authenticated requests by two different users
against the same store receive identical inventory lists. -/
theorem inv_response_identical_across_users
    (db : Store) (secret : String) (now : Nat) (hdr1 hdr2 : AuthHeader)
    (u1 u2 : User)
    (hs1 : lower_ascii hdr1.scheme = "bearer")
    (hs2 : lower_ascii hdr2.scheme = "bearer")
    (ha1 : get_current_user hdr1.param db secret now = Except.ok u1)
    (ha2 : get_current_user hdr2.param db secret now = Except.ok u2)
    (hne : u1 ≠ u2) :
    handle_get_inv (some hdr1) db secret now =
      handle_get_inv (some hdr2) db secret now := by
  simp [handle_get_inv, oauth2_scheme, hs1, hs2, ha1, ha2, read_inv]

/-- Witness for C10: testuser and bob, both stored in the two-user sample
store, receive the same inventory response. -/
theorem inv_response_identical_witness :
    handle_get_inv
        (some { scheme := "Bearer", param := TokenWire.wellFormed sampleToken })
        sampleDb2 sampleSecret 50 =
      handle_get_inv
        (some { scheme := "Bearer",
                param := TokenWire.wellFormed sampleToken2 })
        sampleDb2 sampleSecret 50 :=
  inv_response_identical_across_users sampleDb2 sampleSecret 50 _ _
    sampleUser sampleUser2 (by decide) (by decide) rfl rfl (by decide)

/-- C4: POST /token rejects with the 401 invalid-credentials exception and
issues no token exactly when the username is absent from the store or the
password fails verification against the stored digest; when both checks
pass it returns the bearer token response; and either way the endpoint
leaves the store exactly as it found it. -/
theorem token_endpoint_rejects_iff_bad_credentials :
    ∀ (db : Store) (username password secret : String) (now ttl : Nat),
      (match login_for_access_token db username password secret now ttl with
       | Except.error e =>
           e = invalid_credentials_exception ∧ e.status_code = 401 ∧
           ¬ ∃ u, findUser db username = some u ∧
               verify_password password u.hashed_password = true
       | Except.ok r =>
           r.token_type = "bearer" ∧
           ∃ u, findUser db username = some u ∧
               verify_password password u.hashed_password = true) ∧
      login_for_access_token_effects db username password secret now ttl =
        (login_for_access_token db username password secret now ttl, db) := by
  intro db username password secret now ttl
  cases hf : findUser db username with
  | none =>
    refine ⟨?_, ?_⟩
    · simp [login_for_access_token, hf, invalid_credentials_exception]
    · simp [login_for_access_token, login_for_access_token_effects, hf]
  | some user =>
    by_cases hv : verify_password password user.hashed_password = true
    · refine ⟨?_, ?_⟩
      · simp only [login_for_access_token, hf, if_pos hv]
        exact ⟨by simp, ⟨user, rfl, hv⟩⟩
      · simp [login_for_access_token, login_for_access_token_effects, hf, hv]
    · refine ⟨?_, ?_⟩
      · simp only [login_for_access_token, hf, if_neg hv]
        refine ⟨by simp, by simp [invalid_credentials_exception], ?_⟩
        rintro ⟨u, hu, hvu⟩
        exact hv (by rwa [← Option.some.inj hu] at hvu)
      · simp [login_for_access_token, login_for_access_token_effects, hf,
              if_neg hv]

/-- C5: verification succeeds on the digest of the same plaintext; two hash
calls drawing distinct random salts produce distinct digests, the salt
being embedded in the output; and verification succeeds exactly when the
plaintext matches the one that produced the digest. -/
theorem password_hash_verify_roundtrip_and_salted :
    ∀ (salt salt2 : Nat) (p q : String),
      verify_password p (get_password_hash salt p) = true ∧
      (salt ≠ salt2 → get_password_hash salt p ≠ get_password_hash salt2 p) ∧
      (verify_password q (get_password_hash salt p) = true ↔ q = p) := by
  intro salt salt2 p q
  refine ⟨?_, ?_, ?_⟩
  · simp [verify_password, get_password_hash, hash_function]
  · intro hne hcontra
    exact hne (congrArg Digest.salt hcontra)
  · simp [verify_password, get_password_hash, hash_function]
